import Mathlib

/-!
Verification development for the open_clip model construction code
(src/open_clip/model.py): dual-tower CLIP / VoxelCLIP orchestration,
causal attention mask construction, residual bottleneck blocks,
voxel-encoder variant selection, fp16 weight conversion, the LayerNorm
dtype wrapper, the FlatTransformer positional encoding, and the
positional-embedding resize routine.

Each definition below is a shallow embedding of the corresponding Python
definition; line references point into src/open_clip/model.py.
-/

set_option maxHeartbeats 1000000

/-! ### Tensor dtypes (used by the LayerNorm wrapper and fp16 conversion) -/

/-- Floating dtypes that occur in the code paths under study. -/
inductive DType where
  | float16
  | bfloat16
  | float32
  | float64
deriving DecidableEq, Repr

/-- Storage width of a dtype in bits. -/
def DType.bits : DType → Nat
  | .float16 => 16
  | .bfloat16 => 16
  | .float32 => 32
  | .float64 => 64

/-- A dtype is a reduced precision when it is narrower than float32. -/
def DType.isReduced (d : DType) : Prop := d.bits < DType.float32.bits

instance : DecidablePred DType.isReduced := fun d => by
  unfold DType.isReduced; infer_instance

/-- A tensor together with its dtype.  The stored values are modelled as
exact rationals; rounding performed by a dtype change is outside the scope
of the claims about this code, which concern which dtype each computation
and result carries. -/
structure TypedTensor where
  dtype : DType
  data : List ℚ
deriving DecidableEq, Repr

/-- Model of `Tensor.to(dtype)`: the returned tensor carries the requested
dtype (value rounding abstracted, see `TypedTensor`). -/
def TypedTensor.to (t : TypedTensor) (d : DType) : TypedTensor :=
  { t with dtype := d }

/-! ### LayerNorm wrapper (model.py lines 195-201, claim C4)

The source is

  class LayerNorm(nn.LayerNorm):
      def forward(self, x):
          orig_type = x.dtype
          x = F.layer_norm(x, self.normalized_shape, self.weight, self.bias, self.eps)
          return x.to(orig_type)

Note that `x` is passed to `F.layer_norm` unchanged: no cast to a wider
dtype happens before the primitive is invoked (compare the OpenAI variant,
which passes `x.type(torch.float32)`). -/

/-- Model of the external primitive `torch.nn.functional.layer_norm` as the
source invokes it: the computation runs at the dtype of the input tensor it
receives, and the returned tensor carries that same dtype.  The numeric map
`ln` abstracts the normalization arithmetic (an external capability per the
runtime contract); the second component records the dtype at which the
primitive ran, which is what claim C4 is about. -/
def F_layer_norm (ln : List ℚ → List ℚ) (x : TypedTensor) : TypedTensor × DType :=
  (⟨x.dtype, ln x.data⟩, x.dtype)

/-- Shallow embedding of `LayerNorm.forward` (model.py lines 198-201).
Returns the result tensor together with the dtype at which the
`F.layer_norm` call ran. -/
def LayerNorm.forward (ln : List ℚ → List ℚ) (x : TypedTensor) : TypedTensor × DType :=
  let origType := x.dtype
  let r := F_layer_norm ln x
  (r.1.to origType, r.2)

/-! ### Causal attention mask (model.py lines 985-991, claim C6)

  mask = torch.empty(L, L); mask.fill_(float("-inf")); mask.triu_(1)

The matrix is represented as a function `Fin L → Fin L → MaskVal`,
which carries the L-by-L shape in its type. -/

/-- An attention-mask entry: negative infinity or a finite value. -/
inductive MaskVal where
  | negInf
  | val (q : ℚ)
deriving DecidableEq, Repr

/-- Model of `torch.empty(L, L).fill_(float("-inf"))`: `torch.empty` returns
uninitialized storage and `fill_` overwrites every entry, so the composite is
the all-negative-infinity matrix. -/
def torchFullNegInf (L : Nat) : Fin L → Fin L → MaskVal :=
  fun _ _ => .negInf

/-- Model of the in-place `Tensor.triu_(k)`: entries on or above the k-th
diagonal (`j - i >= k`) are kept, all others are overwritten with zero. -/
def torchTriu (k : Int) {L : Nat} (m : Fin L → Fin L → MaskVal) :
    Fin L → Fin L → MaskVal :=
  fun i j => if (j : Int) ≥ (i : Int) + k then m i j else .val 0

/-- Shallow embedding of `CLIP.build_attention_mask` (model.py lines 985-991). -/
def build_attention_mask (L : Nat) : Fin L → Fin L → MaskVal :=
  torchTriu 1 (torchFullNegInf L)

/-! ### Residual bottleneck block (model.py lines 21-66, claim C8) -/

/-- Symbolic tensor expressions: the computation graph a `Bottleneck.forward`
call builds.  Constructors record the hyperparameters of each layer as the
source constructs them. -/
inductive TExpr where
  | input
  | conv2d (cin cout kernel stride pad : Nat) (bias : Bool) (e : TExpr)
  | batchNorm (ch : Nat) (e : TExpr)
  | relu (e : TExpr)
  | avgPool (kernel : Nat) (e : TExpr)
  | add (a b : TExpr)
deriving DecidableEq, Repr

/-- The layer hyperparameters of the downsample path built at
`Bottleneck.__init__` (model.py lines 45-51): an `nn.AvgPool2d(stride)`
followed by a 1x1 convolution with stride 1 and no bias, followed by a
batch norm. -/
structure DsSpec where
  avgPoolKernel : Nat
  convIn : Nat
  convOut : Nat
  convKernel : Nat
  convStride : Nat
deriving DecidableEq, Repr

/-- `Bottleneck.expansion = 4` (model.py line 22). -/
def Bottleneck.expansion : Nat := 4

/-- State of a constructed `Bottleneck` module. -/
structure Bottleneck where
  inplanes : Nat
  planes : Nat
  stride : Nat
  downsample : Option DsSpec
deriving DecidableEq, Repr

/-- Shallow embedding of `Bottleneck.__init__` (model.py lines 24-51): the
downsample path is built exactly when `stride > 1` or
`inplanes != planes * expansion`. -/
def Bottleneck.init (inplanes planes stride : Nat) : Bottleneck :=
  { inplanes := inplanes
    planes := planes
    stride := stride
    downsample :=
      if 1 < stride ∨ inplanes ≠ planes * Bottleneck.expansion then
        some ⟨stride, inplanes, planes * Bottleneck.expansion, 1, 1⟩
      else
        none }

/-- The computation graph of a downsample path applied to an input
expression: avgpool, then the 1x1 stride-1 convolution, then batch norm
(model.py lines 47-51). -/
def applyDs (d : DsSpec) (x : TExpr) : TExpr :=
  .batchNorm d.convOut
    (.conv2d d.convIn d.convOut d.convKernel d.convStride 0 false
      (.avgPool d.avgPoolKernel x))

/-- The main path of `Bottleneck.forward` (model.py lines 56-59):
relu1/bn1/conv1, relu2/bn2/conv2, the stride avgpool (`nn.Identity` when
stride is 1), then bn3/conv3.  No downsample layer occurs on this path. -/
def Bottleneck.mainPath (b : Bottleneck) (x : TExpr) : TExpr :=
  let out := .relu (.batchNorm b.planes (.conv2d b.inplanes b.planes 1 1 0 false x))
  let out := .relu (.batchNorm b.planes (.conv2d b.planes b.planes 3 1 1 false out))
  let out := if 1 < b.stride then TExpr.avgPool b.stride out else out
  .batchNorm (b.planes * Bottleneck.expansion)
    (.conv2d b.planes (b.planes * Bottleneck.expansion) 1 1 0 false out)

/-- Shallow embedding of `Bottleneck.forward` (model.py lines 53-66): the
downsample path, when present, is applied to the identity branch only; the
output is `relu(mainPath(x) + identity)`. -/
def Bottleneck.forward (b : Bottleneck) (x : TExpr) : TExpr :=
  let identity :=
    match b.downsample with
    | some d => applyDs d x
    | none => x
  .relu (.add (b.mainPath x) identity)

/-! ### Voxel encoder selection (model.py lines 704-852, claims C3 and C10) -/

/-- Fields of `CLIPMlpVoxelCfg` accessed during construction. -/
structure CfgMlp where
  voxel_dim : Nat
  layers : Nat
  layer_width : Nat
deriving DecidableEq, Repr

/-- Fields of `CLIP3dConvNetCfg` accessed during construction (the
`vocab_size` key is read only by the embedding-3d-conv variant). -/
structure Cfg3dConv where
  dims : List Nat
  vocab_size : Nat
deriving DecidableEq, Repr

/-- Fields of `CLIPVoxelVisualTransformerCfg` accessed during construction. -/
structure Cfg2dVT where
  channel_dim : Nat
  channels : Nat
  image_size : Nat
  layers : Nat
  width : Nat
  head_width : Nat
  mlp_ratio : ℚ
  patch_size : Nat
deriving DecidableEq, Repr

/-- Fields of `CLIPVoxelTransformerCfg` (the 3d-transformer branch only
checks that the config is present). -/
structure Cfg3dT where
  width : Nat
  layers : Nat
  heads : Nat
deriving DecidableEq, Repr

/-- The `CLIPVoxelCfg` record: exactly one of the sub-configs is expected
to be populated, depending on the selected variant. -/
structure CLIPVoxelCfgE where
  config_mlp : Option CfgMlp
  config_2d_visual_transformer : Option Cfg2dVT
  config_3d_conv : Option Cfg3dConv
  config_3d_transformer : Option Cfg3dT
deriving DecidableEq, Repr

/-- The voxel encoder a `VoxelCLIP.__init__` run builds, with the
hyperparameters the source passes to each constructor. -/
inductive VoxelEncoderSpec where
  | mlp (input_dim output_dim hidden_dim num_layers : Nat)
  | newConv3d (dims : List Nat) (attention_width output_dim : Nat) (average_output : Bool)
  | embeddingConv3d (dims : List Nat) (attention_width c_in vocab_size output_dim : Nat)
  | voxel2d (image_size patch_size width layers heads : Nat) (mlp_ratio : ℚ)
      (output_dim input_channels channel_dim : Nat)
  | visual3d (space_size : List Nat) (patch_size width layers heads : Nat)
      (mlp_ratio : ℚ) (output_dim : Nat)
  | flatT (width layers heads : Nat) (mlp_ratio : ℚ) (output_dim : Nat)
deriving DecidableEq, Repr

/-- The six discriminator strings `VoxelCLIP.__init__` accepts
(model.py lines 759, 769, 792, 804, 821, 836). -/
def acceptedVoxelTypes : List String :=
  ["mlp", "3d-conv", "embedding-3d-conv", "3d-vision-transformer",
   "3d-transformer", "flat-transformer"]

/-- The declared default of the `voxel_type` parameter
(model.py line 711). -/
def defaultVoxelType : String := "flat"

/-- The assertion message of the mlp branch (model.py line 760); it still
names the legacy discriminator value "flat". -/
def configMlpAssertMsg : String := "config_mlp is required for voxel_type=flat"

/-- The discriminator values `VoxelCLIP.init_parameters` branches on
(model.py lines 860-869); none of them is an accepted construction-time
discriminator. -/
def initParametersReferencedTypes : List String := ["flat", "3d", "3d-flat"]

/-- Shallow embedding of the voxel-encoder selection in
`VoxelCLIP.__init__` (model.py lines 757-848).  A failed assertion or the
final `raise ValueError` is an `Except.error`; on success the constructed
encoder is returned with the hyperparameters the source passes. -/
def buildVoxelEncoder (embed_dim : Nat) (cfg : CLIPVoxelCfgE)
    (voxel_type : String) : Except String VoxelEncoderSpec :=
  if voxel_type = "mlp" then
    match cfg.config_mlp with
    | none => .error configMlpAssertMsg
    | some c => .ok (.mlp c.voxel_dim embed_dim c.layer_width c.layers)
  else if voxel_type = "3d-conv" then
    match cfg.config_3d_conv with
    | none => .error "config_3d_conv is required for voxel_type=3d"
    | some c => .ok (.newConv3d c.dims 64 embed_dim false)
  else if voxel_type = "embedding-3d-conv" then
    match cfg.config_3d_conv with
    | none => .error "config_3d_conv is required for voxel_type=3d"
    | some c => .ok (.embeddingConv3d c.dims 64 64 c.vocab_size embed_dim)
  else if voxel_type = "3d-vision-transformer" then
    match cfg.config_2d_visual_transformer with
    | none => .error "config_2d_visual_transformer is required for voxel_type=3d"
    | some c =>
      .ok (.voxel2d c.image_size c.patch_size c.width c.layers
        (c.width / c.head_width) c.mlp_ratio embed_dim c.channels c.channel_dim)
  else if voxel_type = "3d-transformer" then
    match cfg.config_3d_transformer with
    | none => .error "config_3d_transformer is required for voxel_type=3d"
    | some _ =>
      .ok (.visual3d [42, 46, 61] 8 1408 14 8 (43637 / 10000 : ℚ) embed_dim)
  else if voxel_type = "flat-transformer" then
    .ok (.flatT 512 4 8 4 embed_dim)
  else
    .error ("Invalid voxel type: " ++ voxel_type)

/-! ### fp16 weight conversion (model.py lines 1034-1055, claim C5)

`model.apply(_convert_weights_to_fp16)` visits every module of the tree
once and mutates it locally, so the model is represented as the flat list
of visited modules; the per-module effect is `convertModule`.  A Python
exception raised at some module aborts the whole conversion; the embedding
propagates it as `Except.error`. -/

/-- Module classes that `_convert_weights_to_fp16` discriminates on. -/
inductive MKind where
  | conv1d
  | conv2d
  | conv3d
  | linear
  | mha
  | sequentialK
  | other
deriving DecidableEq, Repr

/-- A parameter tensor: dtype and shape. -/
structure PTensor where
  dtype : DType
  shape : List Nat
deriving DecidableEq, Repr

/-- One module as `_convert_weights_to_fp16` sees it: its class, its direct
attributes that are parameter tensors (absent attributes, such as the bias
of a bias-free convolution or the unused separate q/k/v projections of an
`nn.MultiheadAttention`, are simply missing from the list), and the names
of its direct attributes that are submodules. -/
structure PModule where
  kind : MKind
  params : List (String × PTensor)
  moduleAttrs : List String
deriving DecidableEq, Repr

/-- Model of `tensor.data = tensor.data.half()`. -/
def castHalf (t : PTensor) : PTensor :=
  { t with dtype := .float16 }

/-- Cast the named parameter to half precision if the module has it
(mirrors `if l.bias is not None` and the `getattr`-based loop guards). -/
def castParam (ps : List (String × PTensor)) (n : String) :
    List (String × PTensor) :=
  ps.map fun p => if p.1 = n then (p.1, castHalf p.2) else p

/-- The parameter names of the `nn.MultiheadAttention` branch
(model.py line 1044). -/
def mhaAttrNames : List String :=
  ["in_proj_weight", "q_proj_weight", "k_proj_weight", "v_proj_weight",
   "in_proj_bias", "bias_k", "bias_v"]

/-- The attribute names of the named-projection branch
(model.py line 1049), in the order the source iterates them. -/
def projAttrNames : List String := ["text_projection", "proj"]

/-- The named-projection loop (model.py lines 1049-1053):
`getattr(l, name)` finds parameters and submodules alike; on a parameter it
casts `.data`, but on a submodule the `.data` access raises
`AttributeError` because `nn.Module` has no `data` attribute. -/
def convertProjAttrs : List String → PModule → Except String PModule
  | [], m => .ok m
  | n :: rest, m =>
    if n ∈ m.moduleAttrs then
      .error ("AttributeError: submodule attribute has no data: " ++ n)
    else
      convertProjAttrs rest { m with params := castParam m.params n }

/-- Shallow embedding of `_convert_weights_to_fp16` applied to one module
(model.py lines 1037-1053): the conv1d/conv2d/linear branch, then the
multi-head-attention branch, then the named-projection loop. -/
def convertModule (m : PModule) : Except String PModule :=
  let m :=
    if m.kind = .conv1d ∨ m.kind = .conv2d ∨ m.kind = .linear then
      { m with params := castParam (castParam m.params "weight") "bias" }
    else m
  let m :=
    if m.kind = .mha then
      { m with params := mhaAttrNames.foldl castParam m.params }
    else m
  convertProjAttrs projAttrNames m

/-- Shallow embedding of `convert_weights_to_fp16` (model.py line 1055):
`model.apply` visits every module; the first raised exception propagates. -/
def convert_weights_to_fp16 (model : List PModule) : Except String (List PModule) :=
  model.mapM convertModule

/-- The modules of one `ResidualAttentionBlock(d_model, n_head)` with
`dropout = 0` (model.py lines 210-222), in the order `Module.apply` visits
them (children before parent).  The MLP `nn.Sequential` names its final
linear layer "proj" (model.py line 220), so it has a submodule attribute
named `proj`. -/
def residualAttentionBlockModules (d_model mlp_width : Nat) : List PModule :=
  [ -- attn.out_proj : nn.Linear
    ⟨.linear, [("weight", ⟨.float32, [d_model, d_model]⟩),
               ("bias", ⟨.float32, [d_model]⟩)], []⟩,
    -- attn : nn.MultiheadAttention (packed in_proj, no separate q/k/v, no bias_k/v)
    ⟨.mha, [("in_proj_weight", ⟨.float32, [3 * d_model, d_model]⟩),
            ("in_proj_bias", ⟨.float32, [3 * d_model]⟩)], ["out_proj"]⟩,
    -- ln_1 : LayerNorm
    ⟨.other, [("weight", ⟨.float32, [d_model]⟩),
              ("bias", ⟨.float32, [d_model]⟩)], []⟩,
    -- mlp.c_fc : nn.Linear
    ⟨.linear, [("weight", ⟨.float32, [mlp_width, d_model]⟩),
               ("bias", ⟨.float32, [mlp_width]⟩)], []⟩,
    -- mlp.c_act : activation, no parameters
    ⟨.other, [], []⟩,
    -- mlp.proj : nn.Linear
    ⟨.linear, [("weight", ⟨.float32, [d_model, mlp_width]⟩),
               ("bias", ⟨.float32, [d_model]⟩)], []⟩,
    -- mlp : nn.Sequential with children c_fc, c_act, proj
    ⟨.sequentialK, [], ["c_fc", "c_act", "proj"]⟩,
    -- ln_2 : LayerNorm
    ⟨.other, [("weight", ⟨.float32, [d_model]⟩),
              ("bias", ⟨.float32, [d_model]⟩)], []⟩,
    -- the block itself
    ⟨.other, [], ["attn", "ln_1", "mlp", "ln_2"]⟩ ]

/-- An `nn.Conv3d` module (used by every voxel convolution stack,
model.py lines 486, 543): its class is in none of the branches of
`_convert_weights_to_fp16`, so its tensors are never cast. -/
def conv3dExampleModule : PModule :=
  ⟨.conv3d, [("weight", ⟨.float32, [64, 1, 3, 3, 3]⟩),
             ("bias", ⟨.float32, [64]⟩)], []⟩

/-! ### FlatTransformer (model.py lines 373-422, claim C9)

Inputs are batches of sequences of 4-component points `[t, x, y, z]`,
represented as `List (List (List ℚ))` indexed batch, position, component. -/

/-- Shallow embedding of `FlatTransformer.generate_positional_encoding`
(model.py lines 394-398): the three coordinate channels are extracted but
only the batch size of the first one is used; the learned vector `pos` is
repeated once per batch element. -/
def generate_positional_encoding (pos : List ℚ) (x : List (List (List ℚ))) :
    List (List ℚ) :=
  let p_x := x.map fun r => r.map fun v => v.getD 1 0
  List.replicate p_x.length pos

/-- The scalar-channel extraction `t = x[..., 0]` (model.py line 403). -/
def flatScalarChannel (x : List (List (List ℚ))) : List (List ℚ) :=
  x.map fun r => r.map fun v => v.getD 0 0

/-- The `nn.Conv1d(1, width, kernel_size=1, bias=False)` applied to the
scalar channel, fused with the following `permute(0, 2, 1)`
(model.py lines 405-406): position `s` of batch `b` becomes the vector
`w * t[b][s]` with `w` the flattened convolution weight. -/
def flatConv1Embed (w : List ℚ) (t : List (List ℚ)) : List (List (List ℚ)) :=
  t.map fun row => row.map fun tv => w.map fun wc => wc * tv

/-- Broadcast index resolution: a size-one dimension repeats its only entry. -/
def bIdx (n i : Nat) : Nat := if n = 1 then 0 else i

/-- Torch broadcasting of a rank-3 tensor `e` of shape `(B, L, W)` with a
rank-2 tensor `p` of shape `(pB, pW)` (lifted to `(1, pB, pW)`), as in
`e + self.generate_positional_encoding(x)` (model.py line 407).  Dimension
zero always broadcasts because the lifted size is one; the remaining
dimensions must match or have size one on one side, else torch raises. -/
def broadcastAdd32 (e : List (List (List ℚ))) (p : List (List ℚ)) :
    Except String (List (List (List ℚ))) :=
  let eL := (e.getD 0 []).length
  let pB := p.length
  if eL = pB ∨ pB = 1 ∨ eL = 1 then
    .ok (e.map fun mat =>
      (List.range (max eL pB)).map fun j =>
        let row := mat.getD (bIdx eL j) []
        let prow := p.getD (bIdx pB j) []
        (List.range (max row.length prow.length)).map fun k =>
          row.getD (bIdx row.length k) 0 + prow.getD (bIdx prow.length k) 0)
  else
    .error "RuntimeError: shapes are not broadcastable"

/-- The part of `FlatTransformer.forward` up to and including the
positional-encoding addition (model.py lines 403-407). -/
def FlatTransformer.forwardUpTo (w pos : List ℚ) (x : List (List (List ℚ))) :
    Except String (List (List (List ℚ))) :=
  let t := flatScalarChannel x
  let e := flatConv1Embed w t
  broadcastAdd32 e (generate_positional_encoding pos x)

/-- `FlatTransformer.forward` (model.py lines 400-422): after the
positional-encoding addition, the pipeline `ln_pre`, permute, transformer,
permute, `ln_post` of position zero, and the final projection is a fixed
deterministic function of the intermediate tensor (its parameters are
frozen into `rest`); the claim under study is independent of it, so it is
universally quantified in the theorem. -/
def FlatTransformer.forwardAbs (rest : List (List (List ℚ)) → List (List ℚ))
    (w pos : List ℚ) (x : List (List (List ℚ))) :
    Except String (List (List ℚ)) :=
  (FlatTransformer.forwardUpTo w pos x).map rest

/-! ### Positional-embedding resize (model.py lines 1129-1159, claim C7)

A positional embedding is a `List (List ℚ)`: sequence position to
width-d channel vector.  A checkpoint state dict is an association list
from dotted parameter paths to such tensors. -/

/-- A checkpoint state mapping. -/
abbrev StateDict : Type := List (String × List (List ℚ))

/-- Model of `state_dict.get(key, None)`. -/
def sdGet (sd : StateDict) (k : String) : Option (List (List ℚ)) :=
  match sd with
  | [] => none
  | (n, v) :: rest => if n = k then some v else sdGet rest k

/-- Model of `state_dict[key] = value`: replace the existing binding, or
append a new one. -/
def sdSet (sd : StateDict) (k : String) (v : List (List ℚ)) : StateDict :=
  if (sdGet sd k).isSome then
    sd.map fun p => if p.1 = k then (p.1, v) else p
  else
    sd ++ [(k, v)]

/-- Vector scaling. -/
def vecScale (c : ℚ) (v : List ℚ) : List ℚ := v.map fun x => c * x

/-- Pointwise vector addition (rows of equal width in every use below). -/
def vecAdd (a b : List ℚ) : List ℚ := List.zipWith (· + ·) a b

/-- The fixed coefficient of the bicubic convolution kernel torch uses. -/
def bicubicA : ℚ := -3/4

/-- Cubic convolution kernel on the inner interval (distance at most one). -/
def cubicConv1 (x : ℚ) : ℚ := ((bicubicA + 2) * x - (bicubicA + 3)) * x * x + 1

/-- Cubic convolution kernel on the outer interval (distance in (1, 2)). -/
def cubicConv2 (x : ℚ) : ℚ :=
  ((bicubicA * x - 5 * bicubicA) * x + 8 * bicubicA) * x - 4 * bicubicA

/-- The four bicubic interpolation weights for fractional offset `t`. -/
def cubicCoeffs (t : ℚ) : List ℚ :=
  [cubicConv2 (t + 1), cubicConv1 t, cubicConv1 (1 - t), cubicConv2 (2 - t)]

/-- Source-coordinate scale with `align_corners=True`. -/
def acScale (inSize outSize : Nat) : ℚ :=
  if 1 < outSize then ((inSize : ℚ) - 1) / ((outSize : ℚ) - 1) else 0

/-- Clamp an integer sample index into `[0, n-1]`. -/
def clampIdx (n : Nat) (i : Int) : Nat := (max 0 (min i ((n : Int) - 1))).toNat

/-- Read pixel `(i, j)` of a grid of channel vectors. -/
def gridGet (g : List (List (List ℚ))) (i j : Nat) : List ℚ :=
  (g.getD i []).getD j []

/-- One interpolated output pixel: the 4x4 bicubic stencil around the
source point `(sy, sx)`, with indices clamped at the borders; `d` is the
channel width (the accumulator starts from the zero vector). -/
def interpPixel (g : List (List (List ℚ))) (inH inW : Nat) (sy sx : ℚ)
    (d : Nat) : List ℚ :=
  let iy : Int := ⌊sy⌋
  let ty : ℚ := sy - iy
  let ix : Int := ⌊sx⌋
  let tx : ℚ := sx - ix
  let wys := cubicCoeffs ty
  let wxs := cubicCoeffs tx
  (List.range 4).foldl
    (fun acc m =>
      vecAdd acc (vecScale (wys.getD m 0)
        ((List.range 4).foldl
          (fun acc2 n =>
            vecAdd acc2 (vecScale (wxs.getD n 0)
              (gridGet g (clampIdx inH (iy - 1 + m)) (clampIdx inW (ix - 1 + n)))))
          (List.replicate d 0))))
    (List.replicate d 0)

/-- Model of the external primitive
`F.interpolate(mode=bicubic, align_corners=True)` on a grid of channel
vectors, producing an `outH` by `outW` grid. -/
def F_interpolate_bicubic (g : List (List (List ℚ))) (outH outW d : Nat) :
    List (List (List ℚ)) :=
  let inH := g.length
  let inW := (g.getD 0 []).length
  (List.range outH).map fun (oy : Nat) =>
    (List.range outW).map fun (ox : Nat) =>
      interpPixel g inH inW (acScale inH outH * (oy : ℚ))
        (acScale inW outW * (ox : ℚ)) d

/-- Reshape a flat row-major list of pixels into an `r` by `c` grid
(model of `reshape(1, r, c, -1)` on the image-token embeddings). -/
def reshapeToGrid (r c : Nat) (xs : List (List ℚ)) : List (List (List ℚ)) :=
  (List.range r).map fun i => (xs.drop (i * c)).take c

/-- Shallow embedding of `resize_pos_embed` (model.py lines 1129-1159).
The model grid size is `none` when `model.visual` has no `grid_size`
attribute.  Mutation of `state_dict` in place is modelled by returning the
updated mapping; the early `return` paths return it unchanged.  The
`reshape(1, old_grid, old_grid, -1)` call is modelled for the stored
layouts this code is applied to, in which the image-token count is a
perfect square; on other counts the reshape cannot produce a square grid
of full-width rows and the embedding reports an error. -/
def resize_pos_embed (sd : StateDict) (gridSize : Option (Nat × Nat)) :
    Except String StateDict :=
  match sdGet sd "visual.positional_embedding", gridSize with
  | none, _ => .ok sd
  | some _, none => .ok sd
  | some old_pos_embed, some grid_size =>
    let extra_tokens := 1
    let new_seq_len := grid_size.1 * grid_size.2 + extra_tokens
    if new_seq_len = old_pos_embed.length then .ok sd
    else
      let pos_emb_tok := old_pos_embed.take extra_tokens
      let pos_emb_img := old_pos_embed.drop extra_tokens
      let old_grid_size := Nat.sqrt pos_emb_img.length
      if old_grid_size * old_grid_size = pos_emb_img.length then
        let d := (pos_emb_img.getD 0 []).length
        let grid := reshapeToGrid old_grid_size old_grid_size pos_emb_img
        let interp := F_interpolate_bicubic grid grid_size.1 grid_size.2 d
        .ok (sdSet sd "visual.positional_embedding" (pos_emb_tok ++ interp.flatten))
      else
        .error "RuntimeError: image-token embeddings do not form a square grid"

/-- The value `resize_pos_embed` stores in the resize case, restated from
the else branch of the definition for use in theorem statements: the
leading class-token row followed by the flattened interpolated grid. -/
def resizedPosEmbed (old : List (List ℚ)) (gh gw : Nat) : List (List ℚ) :=
  let img := old.drop 1
  let og := Nat.sqrt img.length
  let d := (img.getD 0 []).length
  old.take 1 ++ (F_interpolate_bicubic (reshapeToGrid og og img) gh gw d).flatten

/-! ### Dual-tower forward (model.py lines 875-892 and 1002-1031, claims C1, C2)

Embeddings are vectors of reals; the encoder towers are arbitrary
functions from inputs to embeddings (their parameters are fixed inside),
exactly the role `self.visual`, `self.voxel_encoder` and the text pipeline
play in `forward`. -/

/-- Sum of squares of a real vector. -/
def sumSq (v : List ℝ) : ℝ := (v.map fun x => x ^ 2).sum

/-- Euclidean norm of a real vector along its (only) dimension. -/
noncomputable def l2norm (v : List ℝ) : ℝ := Real.sqrt (sumSq v)

/-- The default `eps` of `torch.nn.functional.normalize`. -/
noncomputable def normalizeEps : ℝ := 1 / 10 ^ 12

/-- Model of `F.normalize(v, dim=-1)`: divide by the norm clamped below
by `eps`. -/
noncomputable def F_normalize (v : List ℝ) : List ℝ :=
  v.map fun x => x / max (l2norm v) normalizeEps

/-- The possible results of a `forward(image, text)` call. -/
inductive ForwardOut where
  | features (v : List ℝ)
  | pair (a b : List ℝ) (scale : ℝ)
  | attributeError (name : String)
  | typeError (msg : String)

/-- A constructed `CLIP` model, seen through its `forward` contract: the
visual tower, the text pipeline behind `encode_text`, and the learned
log-temperature scalar. -/
structure CLIPModel (α β : Type) where
  visual : α → List ℝ
  textPipeline : β → List ℝ
  logit_scale : ℝ

/-- `CLIP.encode_image` (model.py lines 1002-1003). -/
def CLIPModel.encode_image {α β : Type} (m : CLIPModel α β) (image : α) :
    List ℝ := m.visual image

/-- `CLIP.encode_text` (model.py lines 1005-1018), as the composite
function of the token input. -/
def CLIPModel.encode_text {α β : Type} (m : CLIPModel α β) (text : β) :
    List ℝ := m.textPipeline text

/-- Shallow embedding of `CLIP.forward` (model.py lines 1020-1031).  With
both inputs `none`, the first branch runs `encode_text(None)` and
`token_embedding(None)` raises; this is the `typeError` case. -/
noncomputable def CLIPModel.forward {α β : Type} (m : CLIPModel α β)
    (image : Option α) (text : Option β) : ForwardOut :=
  match image with
  | none =>
    match text with
    | some t => .features (m.encode_text t)
    | none => .typeError "encode_text applied to None"
  | some img =>
    match text with
    | none => .features (m.encode_image img)
    | some t =>
      .pair (F_normalize (m.encode_image img)) (F_normalize (m.encode_text t))
        (Real.exp m.logit_scale)

/-- A constructed `VoxelCLIP` model, seen through its `forward` contract.
The class defines the methods `encode_image` and `encode_voxel`
(model.py lines 875-879) and no method named `encode_text`. -/
structure VoxelCLIPModel (α β : Type) where
  visual : α → List ℝ
  voxel_encoder : β → List ℝ
  logit_scale : ℝ

/-- `VoxelCLIP.encode_image` (model.py lines 875-876). -/
def VoxelCLIPModel.encode_image {α β : Type} (m : VoxelCLIPModel α β)
    (image : α) : List ℝ := m.visual image

/-- `VoxelCLIP.encode_voxel` (model.py lines 878-879). -/
def VoxelCLIPModel.encode_voxel {α β : Type} (m : VoxelCLIPModel α β)
    (voxel : β) : List ℝ := m.voxel_encoder voxel

/-- Shallow embedding of `VoxelCLIP.forward` (model.py lines 881-892).
The `image is None` branch executes `return self.encode_text(text)`
(model.py line 883), but `VoxelCLIP` defines no attribute `encode_text`,
so `nn.Module.__getattr__` raises `AttributeError` before any encoder
runs, whatever `text` is. -/
noncomputable def VoxelCLIPModel.forward {α β : Type} (m : VoxelCLIPModel α β)
    (image : Option α) (text : Option β) : ForwardOut :=
  match image with
  | none => .attributeError "encode_text"
  | some img =>
    match text with
    | none => .features (m.encode_image img)
    | some t =>
      .pair (F_normalize (m.encode_image img)) (F_normalize (m.encode_voxel t))
        (Real.exp m.logit_scale)

/-! ## Theorems -/

/-- C6: for every context length L, the causal attention mask built at CLIP
construction is an L-by-L matrix (carried by the `Fin L` index types) whose
entry (i, j) is negative infinity exactly when j > i and zero exactly when
j <= i; it is a function of L alone. -/
theorem attention_mask_entries (L : Nat) (i j : Fin L) :
    (build_attention_mask L i j = MaskVal.negInf ↔ (i : Nat) < (j : Nat))
    ∧ (build_attention_mask L i j = MaskVal.val 0 ↔ (j : Nat) ≤ (i : Nat)) := by
  have hcond : ((i : Int) + 1 ≤ (j : Int)) ↔ (i : Nat) < (j : Nat) := by omega
  unfold build_attention_mask torchTriu torchFullNegInf
  by_cases h : (i : Nat) < (j : Nat)
  · rw [if_pos (hcond.mpr h)]
    constructor
    · simp [h]
    · constructor
      · intro hc; exact absurd hc (by simp)
      · intro hc; omega
  · rw [if_neg (fun hc => h (hcond.mp hc))]
    constructor
    · constructor
      · intro hc; exact absurd hc.symm (by simp)
      · intro hc; omega
    · simp; omega

/-- C8: a bottleneck block built with input width `inplanes`, width
`planes` and stride `stride` has a downsample path exactly when the stride
exceeds one or the input width differs from `planes * 4` (the fixed
expansion); the downsample path is an average pool followed by a 1x1
stride-1 convolution, and `forward` applies it to the identity branch
only, with the main path the fixed conv/bn/relu chain. -/
theorem bottleneck_downsample_spec (inplanes planes stride : Nat) (x : TExpr) :
    ((Bottleneck.init inplanes planes stride).downsample.isSome
      ↔ (1 < stride ∨ inplanes ≠ planes * 4))
    ∧ (Bottleneck.init inplanes planes stride).downsample
        = (if 1 < stride ∨ inplanes ≠ planes * 4 then
            some ⟨stride, inplanes, planes * 4, 1, 1⟩ else none)
    ∧ applyDs ⟨stride, inplanes, planes * 4, 1, 1⟩ x
        = TExpr.batchNorm (planes * 4)
            (TExpr.conv2d inplanes (planes * 4) 1 1 0 false
              (TExpr.avgPool stride x))
    ∧ (Bottleneck.init inplanes planes stride).forward x
        = TExpr.relu (TExpr.add ((Bottleneck.init inplanes planes stride).mainPath x)
            (match (Bottleneck.init inplanes planes stride).downsample with
             | some d => applyDs d x
             | none => x)) := by
  refine ⟨?_, rfl, rfl, rfl⟩
  unfold Bottleneck.init Bottleneck.expansion
  by_cases h : 1 < stride ∨ inplanes ≠ planes * 4
  · simp [h]
  · simp [h]

/-- C10: the declared default voxel_type "flat" is not among the six
accepted discriminators, so a VoxelCLIP constructed without an explicit
voxel_type always reaches the invalid-discriminator branch, even though
the mlp assertion message and the `init_parameters` branches still
reference "flat". -/
theorem default_voxel_type_flat_invalid :
    defaultVoxelType = "flat"
    ∧ defaultVoxelType ∉ acceptedVoxelTypes
    ∧ (∀ (embed_dim : Nat) (cfg : CLIPVoxelCfgE),
        buildVoxelEncoder embed_dim cfg defaultVoxelType
          = .error ("Invalid voxel type: " ++ defaultVoxelType))
    ∧ defaultVoxelType ∈ initParametersReferencedTypes
    ∧ configMlpAssertMsg = "config_mlp is required for voxel_type=" ++ defaultVoxelType := by
  refine ⟨rfl, by decide, fun embed_dim cfg => rfl, by decide, rfl⟩

/-- C3: constructing a VoxelCLIP with a discriminator string outside the
accepted list fails with a ValueError whose message contains the invalid
value, and no voxel encoder is built. -/
theorem invalid_voxel_type_rejected (embed_dim : Nat) (cfg : CLIPVoxelCfgE)
    (vt : String) (h : vt ∉ acceptedVoxelTypes) :
    buildVoxelEncoder embed_dim cfg vt = .error ("Invalid voxel type: " ++ vt)
    ∧ (∃ p s, "Invalid voxel type: " ++ vt = p ++ vt ++ s)
    ∧ ∀ spec, buildVoxelEncoder embed_dim cfg vt ≠ .ok spec := by
  simp only [acceptedVoxelTypes, List.mem_cons, List.not_mem_nil, or_false,
    not_or] at h
  obtain ⟨h1, h2, h3, h4, h5, h6⟩ := h
  have hmain : buildVoxelEncoder embed_dim cfg vt
      = .error ("Invalid voxel type: " ++ vt) := by
    unfold buildVoxelEncoder
    rw [if_neg h1, if_neg h2, if_neg h3, if_neg h4, if_neg h5, if_neg h6]
  refine ⟨hmain, ⟨"Invalid voxel type: ", "", by simp⟩, fun spec hc => ?_⟩
  rw [hmain] at hc
  exact Except.noConfusion hc

/-- An all-empty voxel configuration record, used as the concrete
configuration of the C3 witness. -/
def emptyVoxelCfg : CLIPVoxelCfgE := ⟨none, none, none, none⟩

/-- Witness for C3 at the concrete discriminator "bogus". -/
theorem invalid_voxel_type_rejected_witness :
    ("bogus" ∉ acceptedVoxelTypes)
    ∧ (buildVoxelEncoder 512 emptyVoxelCfg "bogus"
          = .error ("Invalid voxel type: " ++ "bogus")
        ∧ (∃ p s, "Invalid voxel type: " ++ "bogus" = p ++ "bogus" ++ s)
        ∧ ∀ spec, buildVoxelEncoder 512 emptyVoxelCfg "bogus" ≠ .ok spec) :=
  ⟨by decide, invalid_voxel_type_rejected 512 emptyVoxelCfg "bogus" (by decide)⟩

/-- C4 counterexample: on a float16 input the `F.layer_norm` call inside
the LayerNorm wrapper runs at float16 itself, not at any precision higher
than the reduced input precision (the wrapper performs no upcast), so the
claim that the normalization is computed internally in a higher reference
precision is false.  The numeric map is irrelevant to the dtype flow and
is instantiated with the identity. -/
theorem layerNorm_upcast_counterexample :
    DType.float16.isReduced
    ∧ (LayerNorm.forward id ⟨DType.float16, [1]⟩).2 = DType.float16
    ∧ ¬ DType.float16.bits < (LayerNorm.forward id ⟨DType.float16, [1]⟩).2.bits :=
  ⟨by decide, rfl, by decide⟩

/-- C4 amended: the LayerNorm wrapper records the input dtype, runs
`F.layer_norm` on the input at its own dtype (no internal upcast), and
casts the result back to the recorded dtype, so the returned dtype always
equals the input dtype. -/
theorem layerNorm_dtype_flow (ln : List ℚ → List ℚ) (x : TypedTensor) :
    (LayerNorm.forward ln x).1.dtype = x.dtype
    ∧ (LayerNorm.forward ln x).2 = x.dtype
    ∧ (LayerNorm.forward ln x).1.data = ln x.data :=
  ⟨rfl, rfl, rfl⟩

/-- C5: converting the modules of a residual attention block to fp16
raises an AttributeError: the block's MLP `nn.Sequential` has a submodule
attribute literally named "proj" (its final linear layer), and the
named-projection branch accesses `.data` on it, which a module does not
have; so the conversion never completes on any model containing such a
block.  Moreover an `nn.Conv3d` module matches none of the cast branches,
so its tensors are left at their original precision, although the claim
covers convolution layers. -/
theorem convert_weights_to_fp16_crashes (d_model mlp_width : Nat) :
    convert_weights_to_fp16 (residualAttentionBlockModules d_model mlp_width)
      = .error "AttributeError: submodule attribute has no data: proj"
    ∧ convertModule conv3dExampleModule = .ok conv3dExampleModule :=
  ⟨rfl, rfl⟩

/-- C1: with exactly one input present, `CLIP.forward` returns the raw
output of the corresponding encoder (no normalization, no temperature),
and `VoxelCLIP.forward` does so for a present image; but with the image
null, `VoxelCLIP.forward` calls the nonexistent method `encode_text` and
raises AttributeError instead of returning `encode_voxel(text)`. -/
theorem forward_null_dispatch (α β γ δ : Type) (mc : CLIPModel α β)
    (mv : VoxelCLIPModel γ δ) (i : α) (t : β) (i2 : γ) (v : δ) :
    mc.forward (some i) none = .features (mc.encode_image i)
    ∧ mc.forward none (some t) = .features (mc.encode_text t)
    ∧ mv.forward (some i2) none = .features (mv.encode_image i2)
    ∧ mv.forward none (some v) = .attributeError "encode_text"
    ∧ ∀ u, mv.forward none (some v) ≠ .features u :=
  ⟨rfl, rfl, rfl, rfl, fun _ hc => ForwardOut.noConfusion hc⟩

/-- C9: two FlatTransformer inputs with equal scalar channels (component
zero of every point) but arbitrarily different coordinate components
(components one to three) produce equal forward outputs, for every choice
of convolution weight, learned positional vector, and downstream pipeline:
the positional encoding is one shared learned vector repeated per batch
element, so the coordinates never influence the computation. -/
theorem flat_transformer_coordinate_invariance
    (rest : List (List (List ℚ)) → List (List ℚ)) (w pos : List ℚ)
    (x x' : List (List (List ℚ)))
    (hch : flatScalarChannel x = flatScalarChannel x') :
    FlatTransformer.forwardAbs rest w pos x
      = FlatTransformer.forwardAbs rest w pos x' := by
  have hlen : x.length = x'.length := by
    have h := congrArg List.length hch
    simpa [flatScalarChannel] using h
  unfold FlatTransformer.forwardAbs FlatTransformer.forwardUpTo
    generate_positional_encoding
  rw [hch]
  simp only [List.length_map]
  rw [hlen]

/-- Witness for C9: a one-point batch whose coordinates differ while the
scalar channel agrees. -/
theorem flat_transformer_coordinate_invariance_witness :
    flatScalarChannel [[[1, 2, 3, 4]]] = flatScalarChannel [[[1, 7, 8, 9]]]
    ∧ FlatTransformer.forwardAbs (fun _ => ([] : List (List ℚ))) [1] [0]
        [[[1, 2, 3, 4]]]
      = FlatTransformer.forwardAbs (fun _ => ([] : List (List ℚ))) [1] [0]
        [[[1, 7, 8, 9]]] :=
  ⟨by decide,
   flat_transformer_coordinate_invariance (fun _ => ([] : List (List ℚ)))
     [1] [0] [[[1, 2, 3, 4]]] [[[1, 7, 8, 9]]] (by decide)⟩

/-- Sum of squares is nonnegative. -/
theorem sumSq_nonneg (v : List ℝ) : 0 ≤ sumSq v := by
  induction v with
  | nil => simp [sumSq]
  | cons a tl ih =>
    unfold sumSq at ih ⊢
    simp only [List.map_cons, List.sum_cons]
    have h := sq_nonneg a
    linarith

/-- Dividing every component divides the sum of squares by the square of
the divisor (also valid for divisor zero under division-by-zero
conventions). -/
theorem sumSq_map_div (v : List ℝ) (n : ℝ) :
    sumSq (v.map fun x => x / n) = sumSq v / n ^ 2 := by
  induction v with
  | nil => simp [sumSq]
  | cons a tl ih =>
    unfold sumSq at ih ⊢
    simp only [List.map_cons, List.map_map, List.sum_cons] at ih ⊢
    rw [div_pow, ih, add_div]

/-- If the vector norm is at least the clamp floor, `F.normalize` returns
a vector of Euclidean norm exactly one. -/
theorem l2norm_F_normalize (v : List ℝ) (h : normalizeEps ≤ l2norm v) :
    l2norm (F_normalize v) = 1 := by
  have heps : (0 : ℝ) < normalizeEps := by unfold normalizeEps; positivity
  have hpos : 0 < l2norm v := lt_of_lt_of_le heps h
  have hs : 0 < sumSq v := Real.sqrt_pos.mp hpos
  unfold F_normalize
  rw [max_eq_left h]
  unfold l2norm
  rw [sumSq_map_div, Real.sq_sqrt (le_of_lt hs), div_self (ne_of_gt hs),
    Real.sqrt_one]

/-- C2: with both inputs present, `forward` of a CLIP and of a VoxelCLIP
returns the triple of the L2-normalized primary embedding, the
L2-normalized secondary embedding, and `exp(logit_scale)`; whenever a raw
embedding norm is at least the normalization clamp floor (the reading of
"within floating tolerance" in exact arithmetic), the normalized vector
has norm exactly one, and the scale is positive. -/
theorem forward_both_present_normalized (α β γ δ : Type)
    (mc : CLIPModel α β) (mv : VoxelCLIPModel γ δ)
    (i : α) (t : β) (i2 : γ) (v : δ)
    (h1 : normalizeEps ≤ l2norm (mc.encode_image i))
    (h2 : normalizeEps ≤ l2norm (mc.encode_text t))
    (h3 : normalizeEps ≤ l2norm (mv.encode_image i2))
    (h4 : normalizeEps ≤ l2norm (mv.encode_voxel v)) :
    mc.forward (some i) (some t)
      = .pair (F_normalize (mc.encode_image i)) (F_normalize (mc.encode_text t))
          (Real.exp mc.logit_scale)
    ∧ mv.forward (some i2) (some v)
      = .pair (F_normalize (mv.encode_image i2)) (F_normalize (mv.encode_voxel v))
          (Real.exp mv.logit_scale)
    ∧ l2norm (F_normalize (mc.encode_image i)) = 1
    ∧ l2norm (F_normalize (mc.encode_text t)) = 1
    ∧ l2norm (F_normalize (mv.encode_image i2)) = 1
    ∧ l2norm (F_normalize (mv.encode_voxel v)) = 1
    ∧ 0 < Real.exp mc.logit_scale
    ∧ 0 < Real.exp mv.logit_scale :=
  ⟨rfl, rfl, l2norm_F_normalize _ h1, l2norm_F_normalize _ h2,
   l2norm_F_normalize _ h3, l2norm_F_normalize _ h4,
   Real.exp_pos _, Real.exp_pos _⟩

/-- Concrete CLIP model for the C2 witness: constant encoders with
embeddings of norm five, log-temperature zero. -/
noncomputable def clipWitnessModel : CLIPModel Unit Unit :=
  ⟨fun _ => [3, 4], fun _ => [0, 5], 0⟩

/-- Concrete VoxelCLIP model for the C2 witness. -/
noncomputable def voxelWitnessModel : VoxelCLIPModel Unit Unit :=
  ⟨fun _ => [3, 4], fun _ => [5, 0], 0⟩

/-- The norm of the vector (3, 4) is five. -/
theorem l2norm_three_four : l2norm [(3 : ℝ), 4] = 5 := by
  unfold l2norm sumSq
  simp only [List.map_cons, List.map_nil, List.sum_cons, List.sum_nil]
  rw [show (3 : ℝ) ^ 2 + (4 ^ 2 + 0) = 5 ^ 2 by norm_num]
  exact Real.sqrt_sq (by norm_num)

/-- The norm of the vector (0, 5) is five. -/
theorem l2norm_zero_five : l2norm [(0 : ℝ), 5] = 5 := by
  unfold l2norm sumSq
  simp only [List.map_cons, List.map_nil, List.sum_cons, List.sum_nil]
  rw [show (0 : ℝ) ^ 2 + (5 ^ 2 + 0) = 5 ^ 2 by norm_num]
  exact Real.sqrt_sq (by norm_num)

/-- The norm of the vector (5, 0) is five. -/
theorem l2norm_five_zero : l2norm [(5 : ℝ), 0] = 5 := by
  unfold l2norm sumSq
  simp only [List.map_cons, List.map_nil, List.sum_cons, List.sum_nil]
  rw [show (5 : ℝ) ^ 2 + (0 ^ 2 + 0) = 5 ^ 2 by norm_num]
  exact Real.sqrt_sq (by norm_num)

/-- Witness for C2 at the concrete models. -/
theorem forward_both_present_normalized_witness :
    normalizeEps ≤ l2norm (clipWitnessModel.encode_image ())
    ∧ l2norm (F_normalize (clipWitnessModel.encode_image ())) = 1
    ∧ l2norm (F_normalize (voxelWitnessModel.encode_voxel ())) = 1
    ∧ 0 < Real.exp clipWitnessModel.logit_scale := by
  have h1 : normalizeEps ≤ l2norm (clipWitnessModel.encode_image ()) := by
    rw [show clipWitnessModel.encode_image () = [(3 : ℝ), 4] from rfl,
      l2norm_three_four]
    unfold normalizeEps; norm_num
  have h2 : normalizeEps ≤ l2norm (clipWitnessModel.encode_text ()) := by
    rw [show clipWitnessModel.encode_text () = [(0 : ℝ), 5] from rfl,
      l2norm_zero_five]
    unfold normalizeEps; norm_num
  have h3 : normalizeEps ≤ l2norm (voxelWitnessModel.encode_image ()) := by
    rw [show voxelWitnessModel.encode_image () = [(3 : ℝ), 4] from rfl,
      l2norm_three_four]
    unfold normalizeEps; norm_num
  have h4 : normalizeEps ≤ l2norm (voxelWitnessModel.encode_voxel ()) := by
    rw [show voxelWitnessModel.encode_voxel () = [(5 : ℝ), 0] from rfl,
      l2norm_five_zero]
    unfold normalizeEps; norm_num
  have main := forward_both_present_normalized Unit Unit Unit Unit
    clipWitnessModel voxelWitnessModel () () () () h1 h2 h3 h4
  exact ⟨h1, main.2.2.1, main.2.2.2.2.2.1, main.2.2.2.2.2.2.1⟩

/-- The flattened interpolated grid has exactly target-height times
target-width rows. -/
theorem interp_flatten_length (g : List (List (List ℚ))) (outH outW d : Nat) :
    (F_interpolate_bicubic g outH outW d).flatten.length = outH * outW := by
  unfold F_interpolate_bicubic
  rw [List.length_flatten]
  simp only [List.map_map, Function.comp_def, List.length_map, List.length_range]
  rw [List.map_const', List.sum_replicate, smul_eq_mul, List.length_range]

/-- C7: when the stored positional-embedding length already equals target
grid height times width plus the one leading class token, the resize
routine leaves the state mapping unchanged; otherwise it stores a new
embedding made of the untouched leading class-token row followed by the
flattened bicubic-interpolated grid of exactly the target size. -/
theorem resize_pos_embed_spec (sd : StateDict) (old : List (List ℚ))
    (gh gw og : Nat)
    (hlook : sdGet sd "visual.positional_embedding" = some old)
    (hsq : old.length = og * og + 1) :
    (old.length = gh * gw + 1 → resize_pos_embed sd (some (gh, gw)) = .ok sd)
    ∧ (old.length ≠ gh * gw + 1 →
        resize_pos_embed sd (some (gh, gw))
          = .ok (sdSet sd "visual.positional_embedding" (resizedPosEmbed old gh gw))
        ∧ (resizedPosEmbed old gh gw).length = gh * gw + 1
        ∧ (resizedPosEmbed old gh gw).take 1 = old.take 1
        ∧ ((resizedPosEmbed old gh gw).drop 1).length = gh * gw) := by
  have hdrop : (old.drop 1).length = og * og := by
    rw [List.length_drop, hsq]
    omega
  have hsqrt : Nat.sqrt (old.drop 1).length = og := by
    rw [hdrop]; exact Nat.sqrt_eq og
  constructor
  · intro heq
    unfold resize_pos_embed
    rw [hlook]
    dsimp only
    rw [if_pos heq.symm]
  · intro hne
    have hL : (resizedPosEmbed old gh gw).length = gh * gw + 1 := by
      unfold resizedPosEmbed
      rw [List.length_append, interp_flatten_length, List.length_take]
      omega
    have htake : (resizedPosEmbed old gh gw).take 1 = old.take 1 := by
      have hlen1 : (old.take 1).length = 1 := by
        rw [List.length_take]; omega
      unfold resizedPosEmbed
      rw [List.take_append_eq_append_take, List.take_take, hlen1]
      simp
    have hmain : resize_pos_embed sd (some (gh, gw))
        = .ok (sdSet sd "visual.positional_embedding" (resizedPosEmbed old gh gw)) := by
      unfold resize_pos_embed resizedPosEmbed
      rw [hlook]
      dsimp only
      rw [if_neg (fun hc => hne hc.symm), hsqrt, if_pos hdrop.symm]
    refine ⟨hmain, hL, htake, ?_⟩
    rw [List.length_drop, hL]
    omega

/-- Concrete state dict for the C7 witness: one stored positional
embedding of two rows (one class token plus a 1x1 grid of width one). -/
def resizeWitnessSd : StateDict := [("visual.positional_embedding", [[5], [7]])]

/-- Witness for C7 at the concrete store and the target grid (1, 2). -/
theorem resize_pos_embed_spec_witness :
    sdGet resizeWitnessSd "visual.positional_embedding" = some [[(5 : ℚ)], [7]]
    ∧ ([[(5 : ℚ)], [7]] : List (List ℚ)).length = 1 * 1 + 1
    ∧ resize_pos_embed resizeWitnessSd (some (1, 2))
        = .ok (sdSet resizeWitnessSd "visual.positional_embedding"
            (resizedPosEmbed [[(5 : ℚ)], [7]] 1 2))
    ∧ (resizedPosEmbed [[(5 : ℚ)], [7]] 1 2).take 1 = [[(5 : ℚ)]] := by
  have h := resize_pos_embed_spec resizeWitnessSd [[(5 : ℚ)], [7]] 1 2 1
    (by decide) (by decide)
  have h2 := h.2 (by decide)
  refine ⟨by decide, by decide, h2.1, ?_⟩
  rw [h2.2.2.1]
  decide
